import Mathlib

/-!
Verification of the Simbotix Core licensing-and-metering logic.

This file is a shallow embedding of the metering, licensing, alerting and
central-API client code of `simbotix_core`:

* `simbotix_core/utils/metering.py` (limit evaluation, overage calculation,
  aggregation / sync / retention jobs),
* `simbotix_core/utils/licensing.py` (resource-limit lookup),
* `simbotix_core/doctype/usage_alert/usage_alert.py` (overage rate table,
  alert creation and notification),
* `simbotix_core/doctype/simbotix_core_settings/simbotix_core_settings.py`
  (settings validation),
* `simbotix_core/utils/central_api.py` (retry loop and HMAC request signing).

Python floats are modelled as exact rationals (ℚ), database rows as lists of
records, timestamps as natural-number seconds, and dates as integer day
counts.  Database-dependent inputs (current usage, configured limit, the
remote response) are passed as explicit parameters.
-/

/-! ### Settings (simbotix_core_settings.py)

Fields of the single `Simbotix Core Settings` document used by the embedded
functions.  Numeric framework fields default to 0 when unset, so Python
truthiness of a field is `≠ 0` (for strings: `≠ ""`). -/

structure SimbotixCoreSettings where
  warning_threshold : ℚ
  hard_limit_threshold : ℚ
  sync_interval_hours : ℤ
  cache_ttl_seconds : ℤ
  send_alert_emails : Bool
  alert_email : String
  license_key : String
  block_on_exceeded : Bool
deriving DecidableEq

/-! ### Limit evaluation (metering.py, check_limits) -/

inductive LimitStatus where
  | ok
  | warning
  | exceeded
deriving DecidableEq, Repr

/-- Embedding of `metering.check_limits`.  The database-dependent values
`limit` (= `get_resource_limit(resource)`) and `current`
(= `get_current_usage(resource)`) are parameters. -/
def check_limits (settings : SimbotixCoreSettings) (limit current : ℚ) :
    LimitStatus :=
  if limit = 0 then .ok
  else
    let percentage := current / limit * 100
    if percentage ≥ settings.hard_limit_threshold then .exceeded
    else if percentage ≥ settings.warning_threshold then .warning
    else .ok

/-! ### License and resource-limit lookup (licensing.py) -/

/-- Projection of the cached license dict built by `licensing.get_license`;
`resource_limits` is the parsed JSON mapping resource kind ↦ limit. -/
structure AppLicense where
  tier : String
  status : String
  is_valid : Bool
  resource_limits : List (String × ℚ)
  enabled_features : List String
  enabled_apps : List String
deriving DecidableEq

/-- Embedding of `licensing.get_resource_limit`: returns 0 when there is no
active license, otherwise `limits.get(resource, 0)`. -/
def get_resource_limit (license : Option AppLicense) (resource : String) : ℚ :=
  match license with
  | none => 0
  | some l => (l.resource_limits.lookup resource).getD 0

/-! ### Overage rates (usage_alert.py, OVERAGE_RATES) -/

/-- Entry of the `OVERAGE_RATES` table.  `per` is `none` when the Python dict
has no `"per"` key; lookups use `rate_info.get("per", 1)`. -/
structure RateInfo where
  rate : ℚ
  per : Option ℕ
  unit : String
deriving DecidableEq

/-- Embedding of `usage_alert.OVERAGE_RATES`. -/
def OVERAGE_RATES : List (String × RateInfo) :=
  [ ("storage_gb", ⟨3/2, none, "GB/mo"⟩),
    ("bandwidth_gb", ⟨2/25, none, "GB"⟩),
    ("database_gb", ⟨3, none, "GB/mo"⟩),
    ("api_calls", ⟨1/2, some 10000, "10K calls"⟩),
    ("file_uploads_gb", ⟨3/2, none, "GB/mo"⟩),
    ("executions", ⟨2, some 10000, "10K executions"⟩),
    ("emails", ⟨1, some 1000, "1K emails"⟩),
    ("ai_queries", ⟨3/200, none, "query"⟩),
    ("webhooks", ⟨0, none, "N/A"⟩) ]

/-- Embedding of `UsageAlert.calculate_overage_cost`: the raw (unrounded)
per-resource cost formula.  This is also exactly the cost formula the spec
states for the overage calculator. -/
def calculate_overage_cost (resource_type : String) (overage_quantity : ℚ) :
    ℚ :=
  let rate_info := (OVERAGE_RATES.lookup resource_type).getD ⟨0, none, "unit"⟩
  let rate := rate_info.rate
  let per : ℕ := rate_info.per.getD 1
  if per > 1 then (overage_quantity / per) * rate
  else overage_quantity * rate

/-- Model of Python `round(x, 2)` on an exact rational: round to the nearest
multiple of 1/100, ties to even (banker's rounding). -/
def roundTo2 (x : ℚ) : ℚ :=
  let f : ℤ := ⌊x * 100⌋
  let r : ℚ := x * 100 - f
  if r < 1/2 then (f : ℚ) / 100
  else if r > 1/2 then ((f : ℚ) + 1) / 100
  else (if f % 2 = 0 then (f : ℚ) else (f : ℚ) + 1) / 100

/-- Return value of `metering.calculate_overage`. -/
structure OverageResult where
  exceeded_by : ℚ
  overage_cost : ℚ
  rate : ℚ
deriving DecidableEq

/-- Embedding of `metering.calculate_overage`; `limit` and `current` are the
database-dependent inputs.  Note the final `round(overage_cost, 2)` of the
source. -/
def calculate_overage (resource : String) (limit current : ℚ) :
    OverageResult :=
  if limit = 0 then ⟨0, 0, 0⟩
  else
    let exceeded_by := max 0 (current - limit)
    if exceeded_by = 0 then ⟨0, 0, 0⟩
    else
      let rate_info := (OVERAGE_RATES.lookup resource).getD ⟨0, none, "unit"⟩
      let rate := rate_info.rate
      let per : ℕ := rate_info.per.getD 1
      let overage_cost :=
        if per > 1 then (exceeded_by / per) * rate else exceeded_by * rate
      ⟨exceeded_by, roundTo2 overage_cost, rate⟩

/-! ### Usage records (usage_record.py rows as seen by metering.py jobs) -/

/-- Row of the `Usage Record` table.  `name` is the framework's primary key,
`timestamp` is in seconds, `creation` is the creation date as a day count. -/
structure UsageRec where
  name : String
  resource_type : String
  quantity : ℚ
  timestamp : ℕ
  app_name : String
  aggregated : Bool
  aggregated_at : Option ℕ
  period_start : Option ℕ
  period_end : Option ℕ
  synced : Bool
  synced_at : Option ℕ
  creation : ℤ
deriving DecidableEq

/-- Truncation of a timestamp to its hour
(`replace(minute=0, second=0, microsecond=0)`). -/
def hourStart (t : ℕ) : ℕ := t / 3600 * 3600

/-- Field updates applied by `metering.aggregate_usage` to every record of the
`(resource_type, hour)` group containing it; the group's bucket is the hour of
the record's own timestamp, and the stamped period is `[hour, hour + 1h)`. -/
def stampAggregated (now : ℕ) (r : UsageRec) : UsageRec :=
  { r with
    aggregated := true
    aggregated_at := some now
    period_start := some (hourStart r.timestamp)
    period_end := some (hourStart r.timestamp + 3600) }

/-- Return value of `metering.aggregate_usage`. -/
structure AggregateReturn where
  aggregated_count : ℕ
  resources : List String
deriving DecidableEq

/-- Embedding of `metering.aggregate_usage`: selects the records with
`aggregated = 0`, groups them by `(resource_type, hour)` and stamps every
selected record; unselected records are untouched.  Returns the new table
and the `aggregated_count` / distinct `resources` summary. -/
def aggregate_usage (now : ℕ) (db : List UsageRec) :
    List UsageRec × AggregateReturn :=
  let records := db.filter (fun r => !r.aggregated)
  (db.map (fun r => if r.aggregated then r else stampAggregated now r),
   ⟨records.length, (records.map (·.resource_type)).dedup⟩)

/-! ### Usage sync job (metering.py, sync_usage_to_central) -/

/-- Return value of `CentralAPIClient.report_usage` (already shaped by the
client: `success`, `accepted`, `message` are always present). -/
structure ReportUsageResult where
  success : Bool
  accepted : ℕ
  message : String
deriving DecidableEq

/-- Outcome of the `report_usage` call as observed by the sync job: either the
client returned a result dict, or an exception escaped. -/
inductive ApiReply where
  | ok (r : ReportUsageResult)
  | exc (message : String)
deriving DecidableEq

/-- Return value of `metering.sync_usage_to_central`. -/
structure SyncReturn where
  success : Bool
  synced_count : ℕ
  message : String
deriving DecidableEq

/-- Insertion of an element into a sorted list (helper for the modelled
`ORDER BY`). -/
def insSorted (le : α → α → Bool) (x : α) : List α → List α
  | [] => [x]
  | a :: rest => if le x a then x :: a :: rest else a :: insSorted le x rest

/-- Insertion sort, modelling a SQL `ORDER BY ... asc`. -/
def sortBy (le : α → α → Bool) : List α → List α
  | [] => []
  | a :: rest => insSorted le a (sortBy le rest)

/-- Records selected by the sync job: `aggregated = 1 AND synced = 0`,
ordered by `period_start asc`, `limit 1000`. -/
def syncSelected (db : List UsageRec) : List UsageRec :=
  (sortBy (fun a b => decide (a.period_start.getD 0 ≤ b.period_start.getD 0))
      (db.filter (fun r => r.aggregated && !r.synced))).take 1000

/-- Embedding of `metering.sync_usage_to_central`.  The remote call's outcome
is the `reply` parameter.  On a success reply every selected record is marked
`synced` with `synced_at := now`; on a failure reply or an exception the table
is returned unchanged.  (The source's `result.get("message", "Sync failed")`
default is unreachable because `report_usage` always supplies `message`.) -/
def sync_usage_to_central (settings : SimbotixCoreSettings)
    (db : List UsageRec) (reply : ApiReply) (now : ℕ) :
    List UsageRec × SyncReturn :=
  if settings.license_key = "" then
    (db, ⟨false, 0, "No license key configured"⟩)
  else
    let records := syncSelected db
    if records.isEmpty then (db, ⟨true, 0, "No records to sync"⟩)
    else
      match reply with
      | .ok res =>
        if res.success then
          let names := records.map (·.name)
          let n := records.length
          (db.map (fun r =>
             if names.contains r.name then
               { r with synced := true, synced_at := some now }
             else r),
           ⟨true, n, s!"Synced {n} usage records"⟩)
        else (db, ⟨false, 0, res.message⟩)
      | .exc msg => (db, ⟨false, 0, msg⟩)

/-- Whether the client's `report_usage` reply counts as a success for the
sync job (`result.get("success")` truthy; an exception never is). -/
def replySuccess : ApiReply → Bool
  | .ok res => res.success
  | .exc _ => false

/-! ### Retention job (metering.py, cleanup_old_records) -/

/-- Embedding of `metering.cleanup_old_records`: deletes the rows with
`synced = 1 AND creation < today - 30 days`, returning the surviving table
and the deleted count. -/
def cleanup_old_records (todayDay : ℤ) (db : List UsageRec) :
    List UsageRec × ℕ :=
  let cutoff := todayDay - 30
  ((db.filter (fun r => !(r.synced && decide (r.creation < cutoff)))),
   (db.filter (fun r => r.synced && decide (r.creation < cutoff))).length)

/-! ### Usage alerts (usage_alert.py) -/

/-- Row of the `Usage Alert` table.  `id` stands for the framework-assigned
document name, `creation` is the creation date as a day count. -/
structure UsageAlert where
  id : ℕ
  resource_type : String
  alert_type : String
  threshold_percent : ℚ
  current_usage : ℚ
  limit_value : ℚ
  usage_percent : ℚ
  overage_amount : ℚ
  overage_rate : String
  acknowledged : Bool
  acknowledged_by : String
  creation : ℤ
  notification_sent : Bool
  email_sent_to : String
deriving DecidableEq

/-- Embedding of `UsageAlert.validate`, run by the framework on every insert
and save: recomputes `usage_percent` and, for Exceeded/Blocked alerts that are
over the limit, `overage_amount` / `overage_rate`.  Python truthiness of a
numeric field is modelled as `≠ 0`.  The `overage_rate` f-string rendering is
modelled with Lean's `toString` of the exact rational. -/
def usageAlertValidate (a : UsageAlert) : UsageAlert :=
  let a1 :=
    if a.current_usage ≠ 0 ∧ a.limit_value ≠ 0 ∧ a.limit_value > 0 then
      { a with usage_percent := a.current_usage / a.limit_value * 100 }
    else a
  if (a1.alert_type = "Exceeded" ∨ a1.alert_type = "Blocked") ∧
      a1.current_usage ≠ 0 ∧ a1.limit_value ≠ 0 then
    let overage := a1.current_usage - a1.limit_value
    if overage > 0 then
      let rate_info :=
        (OVERAGE_RATES.lookup a1.resource_type).getD ⟨0, none, "unit"⟩
      { a1 with
        overage_amount := calculate_overage_cost a1.resource_type overage
        overage_rate := "$" ++ toString rate_info.rate ++ "/" ++ rate_info.unit }
    else a1
  else a1

/-- Embedding of `UsageAlert.acknowledge`. -/
def acknowledgeAlert (user : String) (a : UsageAlert) : UsageAlert :=
  usageAlertValidate { a with acknowledged := true, acknowledged_by := user }

/-- Embedding of `UsageAlert.send_notification`.  `sendOk` stands for
`frappe.sendmail` completing without an exception; on the exception path the
alert is unchanged (the sent-flag is only persisted after a successful send).
Returns the saved alert and the number of emails dispatched. -/
def send_notification (settings : SimbotixCoreSettings) (sendOk : Bool)
    (a : UsageAlert) : UsageAlert × ℕ :=
  if !settings.send_alert_emails then (a, 0)
  else if settings.alert_email = "" then (a, 0)
  else if a.notification_sent then (a, 0)
  else if sendOk then
    (usageAlertValidate
       { a with notification_sent := true, email_sent_to := settings.alert_email },
     1)
  else (a, 0)

/-- Dedup predicate of `create_alert`'s existing-alert query: same resource
kind and alert kind, unacknowledged, and created today
(`creation >= frappe.utils.today()`). -/
def alertMatches (resource_type alert_type : String) (today : ℤ)
    (a : UsageAlert) : Bool :=
  a.resource_type == resource_type && a.alert_type == alert_type &&
    !a.acknowledged && decide (a.creation ≥ today)

/-- Replacement of the first element satisfying `p` by its image under `f`
(the query runs with `limit=1` and only that document is saved). -/
def updateFirst (p : α → Bool) (f : α → α) : List α → List α
  | [] => []
  | a :: rest => if p a then f a :: rest else a :: updateFirst p f rest

/-- State touched by `create_alert`: the alert table, the framework's next
document id, and a counter of dispatched emails. -/
structure AlertStore where
  alerts : List UsageAlert
  nextId : ℕ
  emails : ℕ
deriving DecidableEq

/-- Embedding of `usage_alert.create_alert`.  If an unacknowledged alert for
the same `(resource kind, alert kind)` created today exists, that alert's
`current_usage` is updated (the save re-runs `validate`); otherwise a new
alert is inserted and, when `send_email` is set, its notification is
dispatched. -/
def create_alert (settings : SimbotixCoreSettings) (store : AlertStore)
    (today : ℤ) (resource_type alert_type : String)
    (current_usage limit_value : ℚ) (send_email sendOk : Bool) : AlertStore :=
  let threshold :=
    if alert_type = "Warning" then settings.warning_threshold
    else settings.hard_limit_threshold
  let p := alertMatches resource_type alert_type today
  match store.alerts.find? p with
  | some _ =>
    { store with
      alerts := updateFirst p
        (fun a => usageAlertValidate { a with current_usage := current_usage })
        store.alerts }
  | none =>
    let alert := usageAlertValidate
      { id := store.nextId
        resource_type := resource_type
        alert_type := alert_type
        threshold_percent := threshold
        current_usage := current_usage
        limit_value := limit_value
        usage_percent := 0
        overage_amount := 0
        overage_rate := ""
        acknowledged := false
        acknowledged_by := ""
        creation := today
        notification_sent := false
        email_sent_to := "" }
    if send_email then
      let sent := send_notification settings sendOk alert
      { alerts := store.alerts ++ [sent.1]
        nextId := store.nextId + 1
        emails := store.emails + sent.2 }
    else
      { alerts := store.alerts ++ [alert]
        nextId := store.nextId + 1
        emails := store.emails }

/-! ### Settings validation (simbotix_core_settings.py, validate) -/

/-- Embedding of `SimbotixCoreSettings.validate`.  Each check is guarded by
Python truthiness of the fields it reads (`if self.field:`), so a zero/unset
field bypasses its check.  `frappe.throw` is modelled as `Except.error`. -/
def settingsValidate (s : SimbotixCoreSettings) : Except String Unit :=
  if s.warning_threshold ≠ 0 ∧ s.hard_limit_threshold ≠ 0 ∧
      s.warning_threshold ≥ s.hard_limit_threshold then
    .error "Warning threshold must be less than hard limit threshold"
  else if s.sync_interval_hours ≠ 0 ∧
      (s.sync_interval_hours < 1 ∨ s.sync_interval_hours > 24) then
    .error "Sync interval must be between 1 and 24 hours"
  else if s.cache_ttl_seconds ≠ 0 ∧ s.cache_ttl_seconds < 60 then
    .error "Cache TTL must be at least 60 seconds"
  else .ok ()

/-- Modelled from the spec: the host framework's document save, which runs
`validate` before persistence and aborts the save when it throws (the
framework itself is not part of this repository).  Returns the persisted
settings (unchanged on a validation error). -/
def saveSettings (persisted : Option SimbotixCoreSettings)
    (s : SimbotixCoreSettings) :
    Option SimbotixCoreSettings × Except String Unit :=
  match settingsValidate s with
  | .error e => (persisted, .error e)
  | .ok () => (some s, .ok ())

/-! ### Central API client: retry loop (central_api.py, _make_request) -/

/-- JSON values, for the parsed response body. -/
inductive JsonVal where
  | null
  | bool (b : Bool)
  | num (q : ℚ)
  | str (s : String)
  | arr (xs : List JsonVal)
  | obj (fields : List (String × JsonVal))

/-- Outcome of one HTTP attempt, as distinguished by `_make_request`'s
branches and exception handlers. -/
inductive HttpOutcome where
  | success (body : JsonVal)
  | badJson
  | unauthorized
  | forbidden
  | notFound
  | httpError (code : ℕ) (text : String)
  | timeout
  | connectionError
  | requestException (message : String)

/-- Value returned by `_make_request`: either the parsed 200 response (after
unwrapping a `message` envelope) or the failure dict
`\x7b"success": False, "message": ...\x7d` (whose message is `None` only if the
loop never ran). -/
inductive ReqResult where
  | parsed (v : JsonVal)
  | failure (message : Option String)

/-- Observable trace of one `_make_request` call: its return value, the
number of HTTP attempts made, the back-off sleeps performed (in seconds, in
order), and whether the final-error log line was written. -/
structure RequestTrace where
  result : ReqResult
  attempts : ℕ
  sleeps : List ℕ
  logged : Bool

/-- Frappe response-envelope unwrapping: a 200 body that is an object with a
`message` field is replaced by that field. -/
def unwrapMessage (v : JsonVal) : JsonVal :=
  match v with
  | .obj fields =>
    match fields.lookup "message" with
    | some m => m
    | none => .obj fields
  | v => v

/-- The `last_error` string recorded by a retryable attempt outcome (`none`
for outcomes that return instead of retrying). -/
def retryError : HttpOutcome → Option String
  | .badJson => some "Invalid JSON response"
  | .httpError code text => some ("HTTP " ++ toString code ++ ": " ++ text)
  | .timeout => some "Request timed out"
  | .connectionError => some "Connection failed"
  | .requestException message => some message
  | _ => none

/-- Attempt outcomes that make `_make_request` retry (network errors,
timeouts, malformed JSON, non-2xx statuses other than 401/403/404). -/
def isRetryable (o : HttpOutcome) : Bool := (retryError o).isSome

/-- Attempt outcomes that short-circuit with a descriptive failure
(HTTP 401/403/404) and their messages. -/
def shortCircuitMessage : HttpOutcome → Option String
  | .unauthorized => some "Authentication failed"
  | .forbidden => some "Access denied"
  | .notFound => some "Endpoint not found"
  | _ => none

/-- Body of `_make_request`'s `for attempt in range(retry_count)` loop.
`out i` is the outcome of the i-th HTTP attempt, `remaining` the attempts
left, `lastError` the accumulated `last_error`, `sleepAcc` the sleeps done so
far (most recent first).  A retryable failure sleeps `2 ^ attempt` seconds
unless it was the final attempt; exhausting the loop logs and returns the
final error. -/
def makeRequestGo (out : ℕ → HttpOutcome) :
    (attempt remaining : ℕ) → (lastError : Option String) →
    (sleepAcc : List ℕ) → RequestTrace
  | attempt, 0, lastError, sleepAcc =>
    ⟨.failure lastError, attempt, sleepAcc.reverse, true⟩
  | attempt, rem + 1, lastError, sleepAcc =>
    match out attempt with
    | .success body =>
      ⟨.parsed (unwrapMessage body), attempt + 1, sleepAcc.reverse, false⟩
    | .unauthorized =>
      ⟨.failure (some "Authentication failed"), attempt + 1,
        sleepAcc.reverse, false⟩
    | .forbidden =>
      ⟨.failure (some "Access denied"), attempt + 1, sleepAcc.reverse, false⟩
    | .notFound =>
      ⟨.failure (some "Endpoint not found"), attempt + 1,
        sleepAcc.reverse, false⟩
    | .badJson =>
      makeRequestGo out (attempt + 1) rem (some "Invalid JSON response")
        (if rem = 0 then sleepAcc else 2 ^ attempt :: sleepAcc)
    | .httpError code text =>
      makeRequestGo out (attempt + 1) rem
        (some ("HTTP " ++ toString code ++ ": " ++ text))
        (if rem = 0 then sleepAcc else 2 ^ attempt :: sleepAcc)
    | .timeout =>
      makeRequestGo out (attempt + 1) rem (some "Request timed out")
        (if rem = 0 then sleepAcc else 2 ^ attempt :: sleepAcc)
    | .connectionError =>
      makeRequestGo out (attempt + 1) rem (some "Connection failed")
        (if rem = 0 then sleepAcc else 2 ^ attempt :: sleepAcc)
    | .requestException message =>
      makeRequestGo out (attempt + 1) rem (some message)
        (if rem = 0 then sleepAcc else 2 ^ attempt :: sleepAcc)

/-- Embedding of `CentralAPIClient._make_request` with its default
`retry_count = 3` (no caller overrides it). -/
def make_request (out : ℕ → HttpOutcome) : RequestTrace :=
  makeRequestGo out 0 3 none []

/-! ### Central API client: HMAC-SHA256 request signing
(central_api.py, _generate_signature)

The Python source calls `hmac.new(secret, message, hashlib.sha256)` and
`json.dumps(data, sort_keys=True)`; those standard-library primitives are
embedded below from their specifications (FIPS 180-4, RFC 2104, the `json`
module's default encoder) so that `_generate_signature` is executable.
Bytes are naturals `< 256`, 32-bit words are naturals reduced mod `2 ^ 32`. -/

/-- Reduction to a 32-bit word. -/
def wmod (x : ℕ) : ℕ := x % 4294967296

/-- Right rotation of a 32-bit word. -/
def rotr (n x : ℕ) : ℕ := wmod ((x >>> n) ||| (x <<< (32 - n)))

/-- Bitwise complement of a 32-bit word. -/
def wnot (x : ℕ) : ℕ := x ^^^ 4294967295

/-- SHA-256 round constants (FIPS 180-4, in decimal). -/
def sha256K : List ℕ :=
  [1116352408, 1899447441, 3049323471, 3921009573, 961987163,
   1508970993, 2453635748, 2870763221, 3624381080, 310598401,
   607225278, 1426881987, 1925078388, 2162078206, 2614888103,
   3248222580, 3835390401, 4022224774, 264347078, 604807628,
   770255983, 1249150122, 1555081692, 1996064986, 2554220882,
   2821834349, 2952996808, 3210313671, 3336571891, 3584528711,
   113926993, 338241895, 666307205, 773529912, 1294757372,
   1396182291, 1695183700, 1986661051, 2177026350, 2456956037,
   2730485921, 2820302411, 3259730800, 3345764771, 3516065817,
   3600352804, 4094571909, 275423344, 430227734, 506948616,
   659060556, 883997877, 958139571, 1322822218, 1537002063,
   1747873779, 1955562222, 2024104815, 2227730452, 2361852424,
   2428436474, 2756734187, 3204031479, 3329325298]

/-- SHA-256 working state (eight 32-bit words). -/
structure Sha256State where
  a : ℕ
  b : ℕ
  c : ℕ
  d : ℕ
  e : ℕ
  f : ℕ
  g : ℕ
  h : ℕ

/-- SHA-256 initial hash value (FIPS 180-4, in decimal). -/
def sha256Init : Sha256State :=
  ⟨1779033703, 3144134277, 1013904242, 2773480762,
   1359893119, 2600822924, 528734635, 1541459225⟩

/-- Big-endian packing of bytes into 32-bit words. -/
def bytesToWords : List ℕ → List ℕ
  | b1 :: b2 :: b3 :: b4 :: rest =>
    (b1 * 0x1000000 + b2 * 0x10000 + b3 * 0x100 + b4) :: bytesToWords rest
  | _ => []

/-- Big-endian unpacking of a 32-bit word into four bytes. -/
def wordToBytes (w : ℕ) : List ℕ :=
  [(w >>> 24) % 256, (w >>> 16) % 256, (w >>> 8) % 256, w % 256]

/-- Message-schedule extension of a 16-word block to 64 words. -/
def sha256Schedule (w0 : Array ℕ) : Array ℕ :=
  (List.range 48).foldl
    (fun w i =>
      let s0 := rotr 7 (w.getD (i + 1) 0) ^^^ rotr 18 (w.getD (i + 1) 0) ^^^
        (w.getD (i + 1) 0 >>> 3)
      let s1 := rotr 17 (w.getD (i + 14) 0) ^^^ rotr 19 (w.getD (i + 14) 0) ^^^
        (w.getD (i + 14) 0 >>> 10)
      w.push (wmod (w.getD i 0 + s0 + w.getD (i + 9) 0 + s1)))
    w0

/-- One SHA-256 compression round. -/
def sha256Round (s : Sha256State) (kw : ℕ × ℕ) : Sha256State :=
  let bigS1 := rotr 6 s.e ^^^ rotr 11 s.e ^^^ rotr 25 s.e
  let ch := (s.e &&& s.f) ^^^ (wnot s.e &&& s.g)
  let t1 := wmod (s.h + bigS1 + ch + kw.1 + kw.2)
  let bigS0 := rotr 2 s.a ^^^ rotr 13 s.a ^^^ rotr 22 s.a
  let maj := (s.a &&& s.b) ^^^ (s.a &&& s.c) ^^^ (s.b &&& s.c)
  let t2 := wmod (bigS0 + maj)
  ⟨wmod (t1 + t2), s.a, s.b, s.c, wmod (s.d + t1), s.e, s.f, s.g⟩

/-- Compression of one 64-byte chunk into the running state. -/
def sha256Chunk (st : Sha256State) (chunk : List ℕ) : Sha256State :=
  let w := sha256Schedule (Array.mk (bytesToWords chunk))
  let r := (sha256K.zip w.toList).foldl sha256Round st
  ⟨wmod (st.a + r.a), wmod (st.b + r.b), wmod (st.c + r.c), wmod (st.d + r.d),
   wmod (st.e + r.e), wmod (st.f + r.f), wmod (st.g + r.g), wmod (st.h + r.h)⟩

/-- SHA-256 padding: a 0x80 byte, zeros to 56 mod 64, and the 64-bit
big-endian bit length. -/
def sha256Pad (msg : List ℕ) : List ℕ :=
  let l := msg.length
  let zeros := (119 - l % 64) % 64
  msg ++ 0x80 :: List.replicate zeros 0 ++
    (List.range 8).map (fun i => ((l * 8) >>> (8 * (7 - i))) % 256)

/-- Split into 64-byte chunks. -/
def toChunks (l : List ℕ) : List (List ℕ) :=
  match l with
  | [] => []
  | a :: rest => ((a :: rest).take 64) :: toChunks ((a :: rest).drop 64)
termination_by l.length
decreasing_by simp [List.length_drop]; omega

/-- Serialization of the final state, big-endian. -/
def sha256Digest (st : Sha256State) : List ℕ :=
  wordToBytes st.a ++ wordToBytes st.b ++ wordToBytes st.c ++
    wordToBytes st.d ++ wordToBytes st.e ++ wordToBytes st.f ++
    wordToBytes st.g ++ wordToBytes st.h

/-- SHA-256 of a byte string (FIPS 180-4). -/
def sha256 (msg : List ℕ) : List ℕ :=
  sha256Digest ((toChunks (sha256Pad msg)).foldl sha256Chunk sha256Init)

/-- HMAC-SHA256 (RFC 2104), as `hmac.new(key, msg, hashlib.sha256)`. -/
def hmacSha256 (key msg : List ℕ) : List ℕ :=
  let k0 := if key.length > 64 then sha256 key else key
  let kpad := k0 ++ List.replicate (64 - k0.length) 0
  let ipadded := kpad.map (fun b => b ^^^ 0x36)
  let opadded := kpad.map (fun b => b ^^^ 0x5c)
  sha256 (opadded ++ sha256 (ipadded ++ msg))

/-- Lowercase hexadecimal digit. -/
def hexChar (n : ℕ) : Char := "0123456789abcdef".data.getD n '0'

/-- Two lowercase hex digits of a byte. -/
def byteToHex (b : ℕ) : List Char := [hexChar (b / 16), hexChar (b % 16)]

/-- Lowercase hex rendering of a byte string (`.hexdigest()`). -/
def hexdigest (bytes : List ℕ) : String := String.mk (bytes.flatMap byteToHex)

/-- UTF-8 encoding of one character (`str.encode("utf-8")`). -/
def utf8Encode (c : Char) : List ℕ :=
  let n := c.toNat
  if n < 0x80 then [n]
  else if n < 0x800 then [0xc0 + n / 0x40, 0x80 + n % 0x40]
  else if n < 0x10000 then
    [0xe0 + n / 0x1000, 0x80 + n / 0x40 % 0x40, 0x80 + n % 0x40]
  else
    [0xf0 + n / 0x40000, 0x80 + n / 0x1000 % 0x40, 0x80 + n / 0x40 % 0x40,
     0x80 + n % 0x40]

/-- UTF-8 bytes of a string. -/
def strToBytes (s : String) : List ℕ := s.data.flatMap utf8Encode

/-- Embedding of `CentralAPIClient._generate_signature`: empty (or absent)
secret short-circuits to the empty string, otherwise the lowercase-hex
HMAC-SHA256 of the payload under the secret. -/
def generate_signature (api_secret payload : String) : String :=
  if api_secret = "" then ""
  else hexdigest (hmacSha256 (strToBytes api_secret) (strToBytes payload))

/-- JSON escaping of one character per the `json` module's default encoder
(`ensure_ascii=True`): two-character escapes for the common controls, `\uXXXX`
(surrogate pairs above the BMP) for other non-printable or non-ASCII
characters. -/
def jsonEscapeChar (c : Char) : List Char :=
  let n := c.toNat
  if c = '"' then ['\\', '"']
  else if c = '\\' then ['\\', '\\']
  else if c = '\n' then ['\\', 'n']
  else if c = '\r' then ['\\', 'r']
  else if c = '\t' then ['\\', 't']
  else if n = 8 then ['\\', 'b']
  else if n = 12 then ['\\', 'f']
  else if n < 0x20 ∨ n > 0x7e then
    if n < 0x10000 then
      '\\' :: 'u' :: (hexChar (n / 0x1000 % 16) :: hexChar (n / 0x100 % 16) ::
        hexChar (n / 16 % 16) :: [hexChar (n % 16)])
    else
      let v := n - 0x10000
      let hi := 0xd800 + v / 0x400
      let lo := 0xdc00 + v % 0x400
      ['\\', 'u', hexChar (hi / 0x1000 % 16), hexChar (hi / 0x100 % 16),
       hexChar (hi / 16 % 16), hexChar (hi % 16),
       '\\', 'u', hexChar (lo / 0x1000 % 16), hexChar (lo / 0x100 % 16),
       hexChar (lo / 16 % 16), hexChar (lo % 16)]
  else [c]

/-- JSON string literal. -/
def jsonString (s : String) : String :=
  "\"" ++ String.mk (s.data.flatMap jsonEscapeChar) ++ "\""

/-- Embedding of `json.dumps(data, sort_keys=True)` for the flat string
dictionaries the client signs (default separators `", "` and `": "`, keys in
ascending code-point order). -/
def dumpsSorted (data : List (String × String)) : String :=
  let sorted := sortBy (fun x y => !(compare x.1 y.1 == Ordering.gt)) data
  "\x7b" ++
    String.intercalate ", "
      (sorted.map (fun kv => jsonString kv.1 ++ ": " ++ jsonString kv.2)) ++
  "\x7d"

/-- Embedding of the header construction in `_make_request`: `Content-Type`
and `X-Api-Key` always; `X-Api-Signature` and `X-Api-Timestamp` only when a
secret is configured and the payload dict is truthy (present and
non-empty). -/
def buildHeaders (api_key api_secret : String)
    (data : Option (List (String × String))) (timestamp : ℕ) :
    List (String × String) :=
  let base := [("Content-Type", "application/json"), ("X-Api-Key", api_key)]
  match data with
  | some d =>
    if api_secret ≠ "" ∧ d ≠ [] then
      base ++
        [("X-Api-Signature", generate_signature api_secret (dumpsSorted d)),
         ("X-Api-Timestamp", toString timestamp)]
    else base
  | none => base

/-! ## Theorems -/

/-- C1: for every resource kind, `check_limits` returns "ok" whenever the
configured limit is 0 (the unlimited sentinel) regardless of usage; otherwise,
with usage as a percentage of the limit, it returns "exceeded" at or above the
hard-limit threshold, "warning" at or above the warning threshold but below
the hard limit, and "ok" below the warning threshold — boundaries belong to
the higher state.  (The three cases are exhaustive because the warning
threshold does not exceed the hard-limit threshold.) -/
theorem check_limits_states (settings : SimbotixCoreSettings)
    (limit current : ℚ)
    (hthresh : settings.warning_threshold ≤ settings.hard_limit_threshold) :
    (limit = 0 → check_limits settings limit current = .ok) ∧
    (limit ≠ 0 →
      (current / limit * 100 ≥ settings.hard_limit_threshold →
        check_limits settings limit current = .exceeded) ∧
      (current / limit * 100 < settings.hard_limit_threshold →
        current / limit * 100 ≥ settings.warning_threshold →
        check_limits settings limit current = .warning) ∧
      (current / limit * 100 < settings.warning_threshold →
        check_limits settings limit current = .ok)) := by
  refine ⟨fun h => by simp [check_limits, h], fun h0 => ⟨?_, ?_, ?_⟩⟩
  · intro hhard
    simp [check_limits, h0, hhard]
  · intro hlt hwarn
    simp [check_limits, h0, hwarn, not_le.2 hlt]
  · intro hwlt
    have hhlt : current / limit * 100 < settings.hard_limit_threshold :=
      lt_of_lt_of_le hwlt hthresh
    simp [check_limits, h0, not_le.2 hwlt, not_le.2 hhlt]

/-- Witness for `check_limits_states` at a concrete configuration. -/
theorem check_limits_states_witness :
    ((80 : ℚ) ≤ 100) ∧ ((0 : ℚ) = 0) ∧
    check_limits ⟨80, 100, 1, 300, false, "", "key", false⟩ 0 123456 = .ok :=
  ⟨by norm_num, rfl,
    (check_limits_states ⟨80, 100, 1, 300, false, "", "key", false⟩ 0 123456
      (by norm_num)).1 rfl⟩

/-- C10: without an active license, or when the license's resource-limit
mapping omits a resource kind, `get_resource_limit` returns 0, which
`check_limits` treats as the unlimited sentinel — so the limit check yields
"ok" regardless of usage: the quota system fails open. -/
theorem quota_fails_open (settings : SimbotixCoreSettings)
    (license : Option AppLicense) (resource : String) (current : ℚ)
    (h : license = none ∨
      ∀ l, license = some l → l.resource_limits.lookup resource = none) :
    get_resource_limit license resource = 0 ∧
    check_limits settings (get_resource_limit license resource) current =
      .ok := by
  have hlim : get_resource_limit license resource = 0 := by
    rcases h with h | h
    · simp [get_resource_limit, h]
    · cases license with
      | none => simp [get_resource_limit]
      | some l => simp [get_resource_limit, h l rfl]
  exact ⟨hlim, by simp [check_limits, hlim]⟩

/-- Witness for `quota_fails_open`: no license at all, huge usage. -/
theorem quota_fails_open_witness :
    get_resource_limit none "api_calls" = 0 ∧
    check_limits ⟨80, 100, 1, 300, false, "", "key", false⟩
      (get_resource_limit none "api_calls") 999999 = .ok :=
  quota_fails_open ⟨80, 100, 1, 300, false, "", "key", false⟩ none "api_calls"
    999999 (Or.inl rfl)

/-- C2 counterexample: for the per-1000-unit resource "emails" with limit
1000 and usage 1001, the excess is 1 and the claimed cost is
`(1 / 1000) * 1.00 = 0.001`, but `calculate_overage` returns an
`overage_cost` of 0 — the source rounds the cost to 2 decimal places
(`round(overage_cost, 2)`) before returning it. -/
theorem calculate_overage_counterexample :
    (calculate_overage "emails" 1000 1001).exceeded_by = 1 ∧
    calculate_overage_cost "emails" 1 = 1 / 1000 ∧
    (calculate_overage "emails" 1000 1001).overage_cost = 0 ∧
    (0 : ℚ) ≠ 1 / 1000 := by
  have h : OVERAGE_RATES.lookup "emails" = some ⟨1, some 1000, "1K emails"⟩ :=
    rfl
  refine ⟨?_, ?_, ?_, by norm_num⟩
  · norm_num [calculate_overage, h, roundTo2]
  · norm_num [calculate_overage_cost, h]
  · norm_num [calculate_overage, h, roundTo2]

/-- C2 amended: `calculate_overage` returns
`exceeded_by = max(0, current - limit)` with everything 0 when the limit is 0
(unlimited) or usage does not exceed the limit; when exceeded, the returned
cost is the claimed formula — `(exceeded_by / N) * R` by plain division for a
per-N-unit rate, `exceeded_by * R` for a per-unit rate, always 0 for the
zero-rate resource — **rounded to 2 decimal places**. -/
theorem calculate_overage_amended (resource : String) (limit current : ℚ) :
    (limit = 0 → calculate_overage resource limit current = ⟨0, 0, 0⟩) ∧
    (limit ≠ 0 → max 0 (current - limit) = 0 →
      calculate_overage resource limit current = ⟨0, 0, 0⟩) ∧
    (limit ≠ 0 → max 0 (current - limit) ≠ 0 →
      calculate_overage resource limit current =
        ⟨max 0 (current - limit),
         roundTo2 (calculate_overage_cost resource (max 0 (current - limit))),
         ((OVERAGE_RATES.lookup resource).getD ⟨0, none, "unit"⟩).rate⟩) ∧
    (∀ E : ℚ, calculate_overage_cost "api_calls" E = E / 10000 * (1 / 2)) ∧
    (∀ E : ℚ, calculate_overage_cost "storage_gb" E = E * (3 / 2)) ∧
    (∀ E : ℚ, calculate_overage_cost "webhooks" E = 0) ∧
    (calculate_overage "webhooks" limit current).overage_cost = 0 := by
  have hapi : OVERAGE_RATES.lookup "api_calls" =
      some ⟨1/2, some 10000, "10K calls"⟩ := rfl
  have hsto : OVERAGE_RATES.lookup "storage_gb" = some ⟨3/2, none, "GB/mo"⟩ :=
    rfl
  have hweb : OVERAGE_RATES.lookup "webhooks" = some ⟨0, none, "N/A"⟩ := rfl
  have hr0 : roundTo2 0 = 0 := by norm_num [roundTo2]
  refine ⟨fun h => by simp [calculate_overage, h],
    fun h0 hm => by simp [calculate_overage, h0, hm],
    fun h0 hm => ?_, fun E => ?_, fun E => ?_, fun E => ?_, ?_⟩
  · simp [calculate_overage, calculate_overage_cost, h0, hm]
  · simp [calculate_overage_cost, hapi]
  · simp [calculate_overage_cost, hsto]
  · simp [calculate_overage_cost, hweb]
  · by_cases h0 : limit = 0
    · simp [calculate_overage, h0]
    · by_cases hm : max 0 (current - limit) = 0
      · simp [calculate_overage, h0, hm]
      · simp [calculate_overage, h0, hm, hweb, hr0]

/-- Witness for `calculate_overage_amended` at the spec's own example:
14000 excess API calls at $0.50 per 10K cost $0.70. -/
theorem calculate_overage_amended_witness :
    (100000 : ℚ) ≠ 0 ∧ max 0 ((114000 : ℚ) - 100000) ≠ 0 ∧
    calculate_overage "api_calls" 100000 114000 =
      ⟨max 0 ((114000 : ℚ) - 100000),
       roundTo2 (calculate_overage_cost "api_calls"
         (max 0 ((114000 : ℚ) - 100000))),
       ((OVERAGE_RATES.lookup "api_calls").getD ⟨0, none, "unit"⟩).rate⟩ :=
  ⟨by norm_num, by norm_num,
    (calculate_overage_amended "api_calls" 100000 114000).2.2.1
      (by norm_num) (by norm_num)⟩

/-- C9 counterexample: a configuration whose sync interval is 0 — outside the
claimed [1, 24] hours — passes `validate` without raising and is persisted,
because each check is guarded by Python truthiness of its fields
(`if self.sync_interval_hours:`), so a zero field bypasses its check. -/
theorem settings_validate_counterexample :
    ¬(1 ≤ (0 : ℤ) ∧ (0 : ℤ) ≤ 24) ∧
    settingsValidate ⟨80, 100, 0, 300, false, "", "", false⟩ = .ok () ∧
    (saveSettings none ⟨80, 100, 0, 300, false, "", "", false⟩).1 =
      some ⟨80, 100, 0, 300, false, "", "", false⟩ := by
  refine ⟨by norm_num, ?_, ?_⟩ <;>
    norm_num [settingsValidate, saveSettings]

/-- C9 amended: saving the Settings record raises a validation error before
persistence whenever the warning and hard-limit thresholds are both set
(non-zero) and the warning threshold is not strictly below the hard limit,
whenever the sync interval is set and lies outside [1, 24] hours, or whenever
the cache TTL is set and below 60 seconds; an unset (zero) field bypasses its
check, and a configuration failing any performed check is never persisted. -/
theorem settings_validate_amended (s : SimbotixCoreSettings) :
    (settingsValidate s = .ok () ↔
      (s.warning_threshold ≠ 0 → s.hard_limit_threshold ≠ 0 →
        s.warning_threshold < s.hard_limit_threshold) ∧
      (s.sync_interval_hours ≠ 0 →
        1 ≤ s.sync_interval_hours ∧ s.sync_interval_hours ≤ 24) ∧
      (s.cache_ttl_seconds ≠ 0 → 60 ≤ s.cache_ttl_seconds)) ∧
    (∀ persisted, settingsValidate s ≠ .ok () →
      (saveSettings persisted s).1 = persisted) := by
  constructor
  · unfold settingsValidate
    split_ifs with h1 h2 h3
    · simp only [reduceCtorEq, false_iff]
      intro hc
      exact absurd (hc.1 h1.1 h1.2.1) (not_lt.2 h1.2.2)
    · simp only [reduceCtorEq, false_iff]
      intro hc
      rcases (hc.2.1 h2.1) with ⟨hl, hr⟩
      rcases h2.2 with h | h
      · omega
      · omega
    · simp only [reduceCtorEq, false_iff]
      intro hc
      have := hc.2.2 h3.1
      omega
    · simp only [true_iff]
      push_neg at h1 h2 h3
      refine ⟨fun hw hh => ?_, fun hs => ?_, fun hc => ?_⟩
      · exact lt_of_not_le (fun hge => absurd (h1 hw hh) (not_lt.2 hge))
      · constructor
        · by_contra hlt
          exact absurd (h2 hs).1 (by omega)
        · by_contra hgt
          rcases h2 hs with ⟨hl, hr⟩
          omega
      · have := h3 hc
        omega
  · intro persisted hne
    unfold saveSettings
    cases hv : settingsValidate s with
    | error e => rfl
    | ok u => cases u; exact absurd hv hne

/-- Witness for `settings_validate_amended`: a sync interval of 30 hours is
rejected and not persisted. -/
theorem settings_validate_amended_witness :
    settingsValidate ⟨80, 100, 30, 300, false, "", "", false⟩ ≠ .ok () ∧
    (saveSettings none ⟨80, 100, 30, 300, false, "", "", false⟩).1 = none := by
  have hv : settingsValidate ⟨80, 100, 30, 300, false, "", "", false⟩ =
      .error "Sync interval must be between 1 and 24 hours" := by
    norm_num [settingsValidate]
  exact ⟨by simp [hv],
    (settings_validate_amended ⟨80, 100, 30, 300, false, "", "", false⟩).2
      none (by simp [hv])⟩

/-- C8: the retention job deletes a usage record if and only if its synced
flag is set and its creation date is older than the 30-day cutoff; unsynced
records of any age and synced records within the window survive (and records
are never modified, only kept or deleted). -/
theorem cleanup_retention (todayDay : ℤ) (db : List UsageRec) (r : UsageRec)
    (hr : r ∈ db) :
    (r ∈ (cleanup_old_records todayDay db).1 ↔
      ¬(r.synced = true ∧ r.creation < todayDay - 30)) ∧
    (cleanup_old_records todayDay db).2 =
      (db.filter (fun r => r.synced && decide (r.creation < todayDay - 30))).length := by
  refine ⟨?_, rfl⟩
  unfold cleanup_old_records
  simp only [List.mem_filter, hr, true_and, Bool.not_eq_true',
    Bool.and_eq_false_iff]
  constructor
  · rintro h ⟨hs, hc⟩
    rcases h with h | h
    · simp [hs] at h
    · simp [hc] at h
  · intro h
    by_cases hs : r.synced
    · by_cases hc : r.creation < todayDay - 30
      · exact absurd ⟨hs, hc⟩ h
      · right
        simpa using hc
    · left
      simpa using hs

/-- Witness for `cleanup_retention`: an unsynced record 40 days old survives
the run. -/
theorem cleanup_retention_witness :
    (⟨"r1", "api_calls", 1, 0, "", true, none, none, none, false, none, 60⟩ :
        UsageRec) ∈
      [(⟨"r1", "api_calls", 1, 0, "", true, none, none, none, false, none,
        60⟩ : UsageRec)] ∧
    ((⟨"r1", "api_calls", 1, 0, "", true, none, none, none, false, none, 60⟩ :
        UsageRec) ∈
      (cleanup_old_records 100
        [⟨"r1", "api_calls", 1, 0, "", true, none, none, none, false, none,
          60⟩]).1 ↔
      ¬((false : Bool) = true ∧ (60 : ℤ) < 100 - 30)) :=
  ⟨List.mem_singleton.2 rfl,
    (cleanup_retention 100 _ _ (List.mem_singleton.2 rfl)).1⟩

/-- C7: the hourly aggregation job selects exactly the records with
`aggregated = false`, stamps every selected record with `aggregated = true`,
an aggregation timestamp and the period `[hour, hour + 1h)` of its own
(resource kind, hour-truncated timestamp) group, leaves already-aggregated
records untouched, and is idempotent: a re-run with no new records
aggregates zero additional records and changes nothing. -/
theorem aggregate_usage_marks (now now2 : ℕ) (db : List UsageRec) :
    ((aggregate_usage now db).2.aggregated_count =
      (db.filter (fun r => !r.aggregated)).length) ∧
    (∀ r ∈ db, r.aggregated = true → r ∈ (aggregate_usage now db).1) ∧
    (∀ r ∈ db, r.aggregated = false →
      ({ r with
         aggregated := true
         aggregated_at := some now
         period_start := some (hourStart r.timestamp)
         period_end := some (hourStart r.timestamp + 3600) } : UsageRec) ∈
        (aggregate_usage now db).1) ∧
    ((aggregate_usage now2 (aggregate_usage now db).1).1 =
      (aggregate_usage now db).1) ∧
    ((aggregate_usage now2 (aggregate_usage now db).1).2.aggregated_count =
      0) := by
  have hall : ∀ r ∈ (aggregate_usage now db).1, r.aggregated = true := by
    intro r hr
    unfold aggregate_usage at hr
    simp only [List.mem_map] at hr
    obtain ⟨s, _, hs⟩ := hr
    by_cases ha : s.aggregated
    · simp [ha] at hs
      rw [← hs]
      exact ha
    · simp [ha, stampAggregated] at hs
      rw [← hs]
  have key : ∀ Y : List UsageRec, (∀ r ∈ Y, r.aggregated = true) →
      (aggregate_usage now2 Y).1 = Y ∧
      (aggregate_usage now2 Y).2.aggregated_count = 0 := by
    intro Y hY
    constructor
    · unfold aggregate_usage
      simp only
      have hcongr := List.map_congr_left (l := Y)
        (f := fun r : UsageRec =>
          if r.aggregated then r else stampAggregated now2 r)
        (g := id) (fun r hr => by simp [hY r hr])
      rw [hcongr, List.map_id]
    · unfold aggregate_usage
      simp only
      rw [List.length_eq_zero, List.filter_eq_nil_iff]
      intro r hr
      simp [hY r hr]
  refine ⟨rfl, ?_, ?_, (key _ hall).1, (key _ hall).2⟩
  · intro r hr ha
    unfold aggregate_usage
    simp only [List.mem_map]
    exact ⟨r, hr, by simp [ha]⟩
  · intro r hr ha
    unfold aggregate_usage
    simp only [List.mem_map]
    exact ⟨r, hr, by simp [ha, stampAggregated]⟩

/-- Witness for `aggregate_usage_marks`: one unaggregated record gets
stamped. -/
theorem aggregate_usage_marks_witness :
    (⟨"r1", "api_calls", 2, 7260, "", false, none, none, none, false, none,
        0⟩ : UsageRec) ∈
      [(⟨"r1", "api_calls", 2, 7260, "", false, none, none, none, false, none,
        0⟩ : UsageRec)] ∧
    ({ (⟨"r1", "api_calls", 2, 7260, "", false, none, none, none, false, none,
          0⟩ : UsageRec) with
       aggregated := true
       aggregated_at := some 99
       period_start := some (hourStart 7260)
       period_end := some (hourStart 7260 + 3600) } : UsageRec) ∈
      (aggregate_usage 99
        [⟨"r1", "api_calls", 2, 7260, "", false, none, none, none, false,
          none, 0⟩]).1 :=
  ⟨List.mem_singleton.2 rfl,
    (aggregate_usage_marks 99 0
        [⟨"r1", "api_calls", 2, 7260, "", false, none, none, none, false,
          none, 0⟩]).2.2.1 _ (List.mem_singleton.2 rfl) rfl⟩

/-- Inserting into a sorted list is a permutation of consing. -/
theorem insSorted_perm (le : α → α → Bool) (x : α) (l : List α) :
    List.Perm (insSorted le x l) (x :: l) := by
  induction l with
  | nil => rfl
  | cons a rest ih =>
    unfold insSorted
    by_cases h : le x a
    · simp [h]
    · simp only [h, if_false, Bool.false_eq_true]
      exact Trans.trans (ih.cons a) (List.Perm.swap x a rest)

/-- The modelled `ORDER BY` only permutes the list. -/
theorem sortBy_perm (le : α → α → Bool) (l : List α) :
    List.Perm (sortBy le l) l := by
  induction l with
  | nil => rfl
  | cons a rest ih =>
    unfold sortBy
    exact Trans.trans (insSorted_perm le a (sortBy le rest)) (ih.cons a)

/-- Every record selected by the sync job is an aggregated, unsynced row of
the table. -/
theorem syncSelected_mem (db : List UsageRec) (r : UsageRec)
    (hr : r ∈ syncSelected db) :
    r ∈ db ∧ r.aggregated = true ∧ r.synced = false := by
  unfold syncSelected at hr
  have hm := (sortBy_perm _ _).mem_iff.1 (List.mem_of_mem_take hr)
  rcases List.mem_filter.1 hm with ⟨hdb, hp⟩
  simp only [Bool.and_eq_true, Bool.not_eq_true'] at hp
  exact ⟨hdb, hp.1, hp.2⟩


/-- C3: the usage-sync job selects at most 1000 aggregated-but-unsynced
records; on a successful `report_usage` reply it marks exactly the selected
records synced with a timestamp, leaving every other record untouched, and on
a failed reply or an exception it mutates nothing. -/
theorem sync_usage_spec (settings : SimbotixCoreSettings)
    (db : List UsageRec) (reply : ApiReply) (now : ℕ)
    (hkey : settings.license_key ≠ "")
    (hnodup : (db.map (·.name)).Nodup) :
    (syncSelected db).length ≤ 1000 ∧
    (∀ r ∈ syncSelected db, r.aggregated = true ∧ r.synced = false) ∧
    (replySuccess reply = true →
      (sync_usage_to_central settings db reply now).1 =
        db.map (fun r =>
          if r ∈ syncSelected db then
            { r with synced := true, synced_at := some now }
          else r)) ∧
    (replySuccess reply = false →
      (sync_usage_to_central settings db reply now).1 = db) := by
  have hsel : ∀ r ∈ syncSelected db,
      r ∈ db ∧ r.aggregated = true ∧ r.synced = false :=
    fun r hr => syncSelected_mem db r hr
  refine ⟨List.length_take_le _ _, fun r hr => (hsel r hr).2, ?_, ?_⟩
  · intro hsucc
    cases reply with
    | exc m => simp [replySuccess] at hsucc
    | ok res =>
      simp only [replySuccess] at hsucc
      simp only [sync_usage_to_central, if_neg hkey, hsucc, if_true]
      by_cases hemp : (syncSelected db).isEmpty
      · have hnil := List.isEmpty_iff.1 hemp
        simp only [hemp, if_true]
        simp [hnil]
      · simp only [hemp, Bool.false_eq_true, if_false]
        refine List.map_congr_left (fun r hr => ?_)
        by_cases hmem : r ∈ syncSelected db
        · simp [hmem]
          intro h
          exact absurd rfl (h r hmem)
        · simp [hmem]
          intro x hx hxr
          exact absurd
            (List.inj_on_of_nodup_map hnodup (hsel x hx).1 hr hxr ▸ hx) hmem
  · intro hfail
    cases reply with
    | exc m =>
      simp only [sync_usage_to_central, if_neg hkey]
      by_cases hemp : (syncSelected db).isEmpty
      · simp [hemp]
      · simp [hemp]
    | ok res =>
      simp only [replySuccess] at hfail
      simp only [sync_usage_to_central, if_neg hkey, hfail]
      by_cases hemp : (syncSelected db).isEmpty
      · simp [hemp]
      · simp [hemp]

/-- Witness for `sync_usage_spec`: one aggregated, unsynced record and a
successful reply. -/
theorem sync_usage_spec_witness :
    ("key" : String) ≠ "" ∧
    (sync_usage_to_central ⟨80, 100, 1, 300, false, "", "key", false⟩
        [⟨"r1", "api_calls", 2, 0, "", true, none, some 0, some 3600, false,
          none, 0⟩] (.ok ⟨true, 1, "ok"⟩) 42).1 =
      [(⟨"r1", "api_calls", 2, 0, "", true, none, some 0, some 3600, false,
        none, 0⟩ : UsageRec)].map (fun r =>
          if r ∈ syncSelected [⟨"r1", "api_calls", 2, 0, "", true, none,
              some 0, some 3600, false, none, 0⟩] then
            { r with synced := true, synced_at := some 42 }
          else r) :=
  ⟨by decide,
    (sync_usage_spec ⟨80, 100, 1, 300, false, "", "key", false⟩
      [⟨"r1", "api_calls", 2, 0, "", true, none, some 0, some 3600, false,
        none, 0⟩] (.ok ⟨true, 1, "ok"⟩) 42 (by decide) (by decide)).2.2.1
      rfl⟩

/-- `UsageAlert.validate` only recomputes the derived fields
(`usage_percent`, `overage_amount`, `overage_rate`); every identity and
state field is preserved. -/
theorem usageAlertValidate_fields (a : UsageAlert) :
    (usageAlertValidate a).resource_type = a.resource_type ∧
    (usageAlertValidate a).alert_type = a.alert_type ∧
    (usageAlertValidate a).acknowledged = a.acknowledged ∧
    (usageAlertValidate a).creation = a.creation ∧
    (usageAlertValidate a).current_usage = a.current_usage ∧
    (usageAlertValidate a).notification_sent = a.notification_sent := by
  refine ⟨?_, ?_, ?_, ?_, ?_, ?_⟩ <;>
    (unfold usageAlertValidate; dsimp only; split_ifs <;> rfl)

/-- The dedup predicate only reads fields `validate` preserves. -/
theorem alertMatches_validate (rt ak : String) (td : ℤ) (a : UsageAlert) :
    alertMatches rt ak td (usageAlertValidate a) = alertMatches rt ak td a := by
  obtain ⟨h1, h2, h3, h4, -, -⟩ := usageAlertValidate_fields a
  simp [alertMatches, h1, h2, h3, h4]

/-- An acknowledged alert never matches the dedup query. -/
theorem alertMatches_of_acknowledged (rt ak : String) (td : ℤ)
    (a : UsageAlert) (h : a.acknowledged = true) :
    alertMatches rt ak td a = false := by
  simp [alertMatches, h]

/-- `send_notification` only touches the notification bookkeeping fields. -/
theorem send_notification_fields (settings : SimbotixCoreSettings)
    (okb : Bool) (a : UsageAlert) :
    ((send_notification settings okb a).1).resource_type = a.resource_type ∧
    ((send_notification settings okb a).1).alert_type = a.alert_type ∧
    ((send_notification settings okb a).1).acknowledged = a.acknowledged ∧
    ((send_notification settings okb a).1).creation = a.creation ∧
    ((send_notification settings okb a).1).current_usage = a.current_usage := by
  unfold send_notification
  split_ifs with h1 h2 h3 h4
  · simp
  · simp
  · simp
  · obtain ⟨f1, f2, f3, f4, f5, -⟩ := usageAlertValidate_fields
      { a with
        notification_sent := true
        email_sent_to := settings.alert_email }
    simp [f1, f2, f3, f4, f5]
  · simp

/-- Unfolding equation for `updateFirst` on a cons cell. -/
theorem updateFirst_cons (p : α → Bool) (f : α → α) (a : α) (l : List α) :
    updateFirst p f (a :: l) =
      if p a then f a :: l else a :: updateFirst p f l := rfl

/-- Updating the first match preserves the table length. -/
theorem updateFirst_length (p : α → Bool) (f : α → α) (l : List α) :
    (updateFirst p f l).length = l.length := by
  induction l with
  | nil => rfl
  | cons a rest ih =>
    rw [updateFirst_cons]
    by_cases hp : p a <;> simp [hp, ih]

/-- Updating the first match skips a prefix with no matches. -/
theorem updateFirst_append_left (p : α → Bool) (f : α → α) (l1 l2 : List α)
    (h : ∀ x ∈ l1, p x = false) :
    updateFirst p f (l1 ++ l2) = l1 ++ updateFirst p f l2 := by
  induction l1 with
  | nil => rfl
  | cons a rest ih =>
    have ha := h a (by simp)
    simp only [List.cons_append, updateFirst_cons]
    simp [ha, ih (fun x hx => h x (by simp [hx]))]

/-- Updating the first match of a matching singleton. -/
theorem updateFirst_singleton (p : α → Bool) (f : α → α) (a : α)
    (h : p a = true) : updateFirst p f [a] = [f a] := by
  rw [updateFirst_cons]
  simp [h]

/-- An alert's email notification is dispatched at most once: the sent-flag
set by the first successful dispatch suppresses any further one. -/
theorem send_notification_at_most_once (settings : SimbotixCoreSettings)
    (b : UsageAlert) (k1 k2 : Bool) :
    (send_notification settings k2 (send_notification settings k1 b).1).2 +
      (send_notification settings k1 b).2 ≤ 1 := by
  by_cases he : settings.send_alert_emails
  · by_cases ha : settings.alert_email = ""
    · simp [send_notification, he, ha]
    · by_cases hn : b.notification_sent
      · simp [send_notification, he, ha, hn]
      · by_cases hk : k1
        · have hflag := (usageAlertValidate_fields
            { b with
              notification_sent := true
              email_sent_to := settings.alert_email }).2.2.2.2.2
          simp [send_notification, he, ha, hn, hk, hflag]
        · simp only [send_notification, he, ha, hn, hk]
          split_ifs <;> simp
  · simp [send_notification, he]

/-- Projection form of `usageAlertValidate_fields`, for rewriting. -/
theorem validate_resource_type (a : UsageAlert) :
    (usageAlertValidate a).resource_type = a.resource_type :=
  (usageAlertValidate_fields a).1

/-- Projection form of `usageAlertValidate_fields`, for rewriting. -/
theorem validate_alert_type (a : UsageAlert) :
    (usageAlertValidate a).alert_type = a.alert_type :=
  (usageAlertValidate_fields a).2.1

/-- Projection form of `usageAlertValidate_fields`, for rewriting. -/
theorem validate_acknowledged (a : UsageAlert) :
    (usageAlertValidate a).acknowledged = a.acknowledged :=
  (usageAlertValidate_fields a).2.2.1

/-- Projection form of `usageAlertValidate_fields`, for rewriting. -/
theorem validate_creation (a : UsageAlert) :
    (usageAlertValidate a).creation = a.creation :=
  (usageAlertValidate_fields a).2.2.2.1

/-- Projection form of `usageAlertValidate_fields`, for rewriting. -/
theorem validate_current_usage (a : UsageAlert) :
    (usageAlertValidate a).current_usage = a.current_usage :=
  (usageAlertValidate_fields a).2.2.2.2.1

/-- Projection form of `usageAlertValidate_fields`, for rewriting. -/
theorem validate_notification_sent (a : UsageAlert) :
    (usageAlertValidate a).notification_sent = a.notification_sent :=
  (usageAlertValidate_fields a).2.2.2.2.2

/-- Projection form of `send_notification_fields`, for rewriting. -/
theorem send_resource_type (settings : SimbotixCoreSettings) (okb : Bool)
    (a : UsageAlert) :
    ((send_notification settings okb a).1).resource_type = a.resource_type :=
  (send_notification_fields settings okb a).1

/-- Projection form of `send_notification_fields`, for rewriting. -/
theorem send_alert_type (settings : SimbotixCoreSettings) (okb : Bool)
    (a : UsageAlert) :
    ((send_notification settings okb a).1).alert_type = a.alert_type :=
  (send_notification_fields settings okb a).2.1

/-- Projection form of `send_notification_fields`, for rewriting. -/
theorem send_acknowledged (settings : SimbotixCoreSettings) (okb : Bool)
    (a : UsageAlert) :
    ((send_notification settings okb a).1).acknowledged = a.acknowledged :=
  (send_notification_fields settings okb a).2.2.1

/-- Projection form of `send_notification_fields`, for rewriting. -/
theorem send_creation (settings : SimbotixCoreSettings) (okb : Bool)
    (a : UsageAlert) :
    ((send_notification settings okb a).1).creation = a.creation :=
  (send_notification_fields settings okb a).2.2.2.1

/-- Projection form of `send_notification_fields`, for rewriting. -/
theorem send_current_usage (settings : SimbotixCoreSettings) (okb : Bool)
    (a : UsageAlert) :
    ((send_notification settings okb a).1).current_usage = a.current_usage :=
  (send_notification_fields settings okb a).2.2.2.2

/-- When no alert matches the dedup query, `create_alert` appends one new
alert, which matches the query, carries the requested fields, and is
unacknowledged. -/
theorem create_alert_append (settings : SimbotixCoreSettings)
    (st : AlertStore) (today : ℤ) (rt ak : String) (u lim : ℚ)
    (se okb : Bool)
    (hno : ∀ a ∈ st.alerts, alertMatches rt ak today a = false) :
    ∃ A, (create_alert settings st today rt ak u lim se okb).alerts =
        st.alerts ++ [A] ∧
      alertMatches rt ak today A = true ∧
      A.resource_type = rt ∧ A.alert_type = ak ∧ A.acknowledged = false ∧
      A.creation = today ∧ A.current_usage = u := by
  have hfind : st.alerts.find? (alertMatches rt ak today) = none :=
    List.find?_eq_none.2 (fun x hx => by simp [hno x hx])
  unfold create_alert
  dsimp only
  rw [hfind]
  by_cases hse : se
  · simp only [hse, if_true]
    refine ⟨_, rfl, ?_, ?_, ?_, ?_, ?_⟩ <;>
      simp [alertMatches, validate_resource_type, validate_alert_type,
        validate_acknowledged, validate_creation, validate_current_usage,
        send_resource_type, send_alert_type, send_acknowledged,
        send_creation, send_current_usage]
  · simp only [hse, if_false, Bool.false_eq_true]
    refine ⟨_, rfl, ?_, ?_, ?_, ?_, ?_⟩ <;>
      simp [alertMatches, validate_resource_type, validate_alert_type,
        validate_acknowledged, validate_creation, validate_current_usage]

/-- When the table is a no-match prefix followed by one matching alert,
`create_alert` updates that alert's `current_usage` in place (re-running
`validate`) instead of inserting. -/
theorem create_alert_update (settings : SimbotixCoreSettings)
    (st : AlertStore) (today : ℤ) (rt ak : String) (u lim : ℚ)
    (se okb : Bool) (l1 : List UsageAlert) (A : UsageAlert)
    (hs : st.alerts = l1 ++ [A])
    (hno : ∀ x ∈ l1, alertMatches rt ak today x = false)
    (hA : alertMatches rt ak today A = true) :
    (create_alert settings st today rt ak u lim se okb).alerts =
      l1 ++ [usageAlertValidate { A with current_usage := u }] := by
  have hfind : st.alerts.find? (alertMatches rt ak today) = some A := by
    rw [hs, List.find?_append]
    rw [List.find?_eq_none.2 (fun x hx => by simp [hno x hx])]
    simp [List.find?_cons, hA]
  unfold create_alert
  dsimp only
  rw [hfind]
  dsimp only
  rw [hs, updateFirst_append_left _ _ _ _ hno, updateFirst_singleton _ _ _ hA]

/-- C6: `create_alert` is idempotent per (resource kind, alert kind) within a
day while an alert is unacknowledged — starting from a table with no matching
open alert, the first call appends one alert, a second call the same day
updates that alert's `current_usage` to the latest value instead of inserting;
once the alert is acknowledged, the next call appends a new, distinct
(unacknowledged) alert; and each alert's email notification is dispatched at
most once, guarded by its sent-flag. -/
theorem create_alert_scenario (settings : SimbotixCoreSettings)
    (store : AlertStore) (today : ℤ) (rt ak : String) (u1 u2 u3 lim : ℚ)
    (se ok1 ok2 ok3 : Bool) (user : String)
    (h : ∀ a ∈ store.alerts, alertMatches rt ak today a = false) :
    let st1 := create_alert settings store today rt ak u1 lim se ok1
    let st2 := create_alert settings st1 today rt ak u2 lim se ok2
    let st3 : AlertStore :=
      { st2 with
        alerts := st2.alerts.map (fun a =>
          if alertMatches rt ak today a then acknowledgeAlert user a else a) }
    let st4 := create_alert settings st3 today rt ak u3 lim se ok3
    st1.alerts.length = store.alerts.length + 1 ∧
    st2.alerts.length = st1.alerts.length ∧
    (∃ a ∈ st2.alerts,
      alertMatches rt ak today a = true ∧ a.current_usage = u2) ∧
    st4.alerts.length = st3.alerts.length + 1 ∧
    (∃ a ∈ st4.alerts, a.resource_type = rt ∧ a.alert_type = ak ∧
      a.acknowledged = false ∧ a.current_usage = u3) ∧
    (∀ (b : UsageAlert) (k1 k2 : Bool),
      (send_notification settings k2 (send_notification settings k1 b).1).2 +
        (send_notification settings k1 b).2 ≤ 1) := by
  dsimp only
  obtain ⟨A1, hA1eq, hA1m, hA1rt, hA1ak, hA1ack, hA1cr, hA1u⟩ :=
    create_alert_append settings store today rt ak u1 lim se ok1 h
  have hst2 := create_alert_update settings
    (create_alert settings store today rt ak u1 lim se ok1)
    today rt ak u2 lim se ok2 store.alerts A1 hA1eq h hA1m
  have hA2m : alertMatches rt ak today
      (usageAlertValidate { A1 with current_usage := u2 }) = true := by
    rw [alertMatches_validate]
    simp [alertMatches, hA1rt, hA1ak, hA1ack, hA1cr]
  have hA2u :
      (usageAlertValidate { A1 with current_usage := u2 }).current_usage =
        u2 := by
    rw [validate_current_usage]
  have hmapstore : store.alerts.map (fun a =>
      if alertMatches rt ak today a then acknowledgeAlert user a else a) =
      store.alerts := by
    have hc := List.map_congr_left (l := store.alerts)
      (f := fun a =>
        if alertMatches rt ak today a then acknowledgeAlert user a else a)
      (g := id) (fun a ha => by simp [h a ha])
    rw [hc, List.map_id]
  have hst3 : (create_alert settings
      (create_alert settings store today rt ak u1 lim se ok1)
      today rt ak u2 lim se ok2).alerts.map (fun a =>
        if alertMatches rt ak today a then acknowledgeAlert user a else a) =
      store.alerts ++
        [acknowledgeAlert user
          (usageAlertValidate { A1 with current_usage := u2 })] := by
    rw [hst2, List.map_append, hmapstore]
    simp [hA2m]
  have hackm : ∀ a ∈ store.alerts ++
      [acknowledgeAlert user
        (usageAlertValidate { A1 with current_usage := u2 })],
      alertMatches rt ak today a = false := by
    intro a ha
    rcases List.mem_append.1 ha with ha | ha
    · exact h a ha
    · rw [List.mem_singleton.1 ha]
      refine alertMatches_of_acknowledged _ _ _ _ ?_
      unfold acknowledgeAlert
      rw [validate_acknowledged]
  obtain ⟨A3, hA3eq, hA3m, hA3rt, hA3ak, hA3ack, hA3cr, hA3u⟩ :=
    create_alert_append settings
      { create_alert settings
          (create_alert settings store today rt ak u1 lim se ok1)
          today rt ak u2 lim se ok2 with
        alerts := (create_alert settings
          (create_alert settings store today rt ak u1 lim se ok1)
          today rt ak u2 lim se ok2).alerts.map (fun a =>
            if alertMatches rt ak today a then acknowledgeAlert user a
            else a) }
      today rt ak u3 lim se ok3
      (by
        dsimp only
        rw [hst3]
        exact hackm)
  refine ⟨?_, ?_, ?_, ?_, ?_,
    fun b k1 k2 => send_notification_at_most_once settings b k1 k2⟩
  · rw [hA1eq]
    simp
  · rw [hst2, hA1eq]
    simp
  · exact ⟨usageAlertValidate { A1 with current_usage := u2 },
      by rw [hst2]; exact List.mem_append_right _ (List.mem_singleton.2 rfl),
      hA2m, hA2u⟩
  · rw [hA3eq, hst3]
    simp
  · refine ⟨A3, ?_, hA3rt, hA3ak, hA3ack, hA3u⟩
    rw [hA3eq]
    exact List.mem_append_right _ (List.mem_singleton.2 rfl)

/-- Witness for `create_alert_scenario`: an empty alert table. -/
theorem create_alert_scenario_witness :
    (∀ a ∈ (⟨[], 0, 0⟩ : AlertStore).alerts,
      alertMatches "storage_gb" "Warning" 10 a = false) ∧
    (create_alert ⟨80, 100, 1, 300, true, "admin@example.com", "key", false⟩
        ⟨[], 0, 0⟩ 10 "storage_gb" "Warning" 85 100 true
        true).alerts.length =
      (⟨[], 0, 0⟩ : AlertStore).alerts.length + 1 := by
  refine ⟨fun a ha => absurd ha (List.not_mem_nil a), ?_⟩
  have hs := create_alert_scenario
    ⟨80, 100, 1, 300, true, "admin@example.com", "key", false⟩
    ⟨[], 0, 0⟩ 10 "storage_gb" "Warning" 85 90 95 100 true true true true
    "admin" (fun a ha => absurd ha (List.not_mem_nil a))
  dsimp only at hs
  exact hs.1

/-- Every attempt outcome is a 200 success, a short-circuiting 4xx, or a
retryable failure. -/
theorem outcome_classify (o : HttpOutcome) :
    (∃ body, o = .success body) ∨ (∃ M, shortCircuitMessage o = some M) ∨
    (∃ M, retryError o = some M) := by
  cases o <;> simp [shortCircuitMessage, retryError]

/-- Unfolding: a 200 attempt returns the unwrapped body at once. -/
theorem makeRequestGo_success (out : ℕ → HttpOutcome)
    (attempt r : ℕ) (le : Option String) (acc : List ℕ) (body : JsonVal)
    (hout : out attempt = .success body) :
    makeRequestGo out attempt (r + 1) le acc =
      ⟨.parsed (unwrapMessage body), attempt + 1, acc.reverse, false⟩ := by
  unfold makeRequestGo
  rw [hout]

/-- Unfolding: a 401/403/404 attempt returns its descriptive failure at
once. -/
theorem makeRequestGo_terminal (out : ℕ → HttpOutcome)
    (attempt r : ℕ) (le : Option String) (acc : List ℕ) (M : String)
    (hM : shortCircuitMessage (out attempt) = some M) :
    makeRequestGo out attempt (r + 1) le acc =
      ⟨.failure (some M), attempt + 1, acc.reverse, false⟩ := by
  unfold makeRequestGo
  cases hout : out attempt <;> rw [hout] at hM <;>
    simp_all [shortCircuitMessage]

/-- Unfolding: a retryable attempt records its error, sleeps `2 ^ attempt`
seconds unless it was the last attempt, and continues the loop. -/
theorem makeRequestGo_retry (out : ℕ → HttpOutcome)
    (attempt r : ℕ) (le : Option String) (acc : List ℕ) (M : String)
    (hM : retryError (out attempt) = some M) :
    makeRequestGo out attempt (r + 1) le acc =
      makeRequestGo out (attempt + 1) r (some M)
        (if r = 0 then acc else 2 ^ attempt :: acc) := by
  cases hout : out attempt <;> rw [hout] at hM <;>
    simp only [retryError, Option.some.injEq, reduceCtorEq] at hM <;>
    subst hM <;> (conv_lhs => rw [makeRequestGo]) <;> rw [hout]

/-- Attempt-count bounds for the retry loop. -/
theorem go_bounds (out : ℕ → HttpOutcome) :
    ∀ (rem attempt : ℕ) (le : Option String) (acc : List ℕ),
    (makeRequestGo out attempt rem le acc).attempts ≤ attempt + rem ∧
    attempt ≤ (makeRequestGo out attempt rem le acc).attempts ∧
    (1 ≤ rem →
      attempt + 1 ≤ (makeRequestGo out attempt rem le acc).attempts) := by
  intro rem
  induction rem with
  | zero =>
    intro attempt le acc
    simp [makeRequestGo]
  | succ r ih =>
    intro attempt le acc
    rcases outcome_classify (out attempt) with ⟨body, hb⟩ | ⟨M, hM⟩ | ⟨M, hM⟩
    · rw [makeRequestGo_success out attempt r le acc body hb]
      dsimp only
      refine ⟨by omega, by omega, fun _ => by omega⟩
    · rw [makeRequestGo_terminal out attempt r le acc M hM]
      dsimp only
      refine ⟨by omega, by omega, fun _ => by omega⟩
    · rw [makeRequestGo_retry out attempt r le acc M hM]
      obtain ⟨h1, h2, -⟩ := ih (attempt + 1) (some M)
        (if r = 0 then acc else 2 ^ attempt :: acc)
      refine ⟨by omega, by omega, fun _ => by omega⟩

/-- Sleep trace of the retry loop: exactly one sleep of `2 ^ i` seconds after
every non-final attempt `i`. -/
theorem go_sleeps (out : ℕ → HttpOutcome) :
    ∀ (rem attempt : ℕ) (le : Option String) (acc : List ℕ),
    (makeRequestGo out attempt rem le acc).sleeps =
      acc.reverse ++
        (List.range' attempt
          ((makeRequestGo out attempt rem le acc).attempts - 1 -
            attempt)).map (fun i => 2 ^ i) := by
  intro rem
  induction rem with
  | zero =>
    intro attempt le acc
    simp [makeRequestGo]
  | succ r ih =>
    intro attempt le acc
    rcases outcome_classify (out attempt) with ⟨body, hb⟩ | ⟨M, hM⟩ | ⟨M, hM⟩
    · rw [makeRequestGo_success out attempt r le acc body hb]
      simp
    · rw [makeRequestGo_terminal out attempt r le acc M hM]
      simp
    · rw [makeRequestGo_retry out attempt r le acc M hM]
      cases r with
      | zero =>
        simp [makeRequestGo]
      | succ r' =>
        rw [if_neg (Nat.succ_ne_zero r')]
        rw [ih (attempt + 1) (some M) (2 ^ attempt :: acc)]
        have hA := (go_bounds out (r' + 1) (attempt + 1) (some M)
          (2 ^ attempt :: acc)).2.2 (by omega)
        have hsplit :
            (makeRequestGo out (attempt + 1) (r' + 1) (some M)
              (2 ^ attempt :: acc)).attempts - 1 - attempt =
            ((makeRequestGo out (attempt + 1) (r' + 1) (some M)
              (2 ^ attempt :: acc)).attempts - 1 - (attempt + 1)) + 1 := by
          omega
        rw [hsplit, List.range'_succ, List.map_cons, List.reverse_cons,
          List.append_assoc, List.singleton_append]

/-- If every attempt before `i` fails retryably and attempt `i` hits a
401/403/404, the loop stops right after attempt `i` with that status's
descriptive message and without logging. -/
theorem go_shortCircuit (out : ℕ → HttpOutcome) (i : ℕ) (M : String) :
    ∀ (rem attempt : ℕ) (le : Option String) (acc : List ℕ),
    attempt ≤ i → i < attempt + rem →
    (∀ j, attempt ≤ j → j < i → isRetryable (out j) = true) →
    shortCircuitMessage (out i) = some M →
    (makeRequestGo out attempt rem le acc).result = .failure (some M) ∧
    (makeRequestGo out attempt rem le acc).attempts = i + 1 ∧
    (makeRequestGo out attempt rem le acc).logged = false := by
  intro rem
  induction rem with
  | zero =>
    intro attempt le acc h1 h2 _ _
    omega
  | succ r ih =>
    intro attempt le acc h1 h2 hall hM
    by_cases hi : attempt = i
    · subst hi
      rw [makeRequestGo_terminal out attempt r le acc M hM]
      exact ⟨rfl, rfl, rfl⟩
    · have hlt : attempt < i := by omega
      have hretry : isRetryable (out attempt) = true :=
        hall attempt le_rfl hlt
      rcases Option.isSome_iff_exists.1 hretry with ⟨M', hM'⟩
      rw [makeRequestGo_retry out attempt r le acc M' hM']
      exact ih (attempt + 1) (some M')
        (if r = 0 then acc else 2 ^ attempt :: acc) (by omega) (by omega)
        (fun j hj1 hj2 => hall j (by omega) hj2) hM

/-- If every attempt fails retryably, the loop exhausts its budget, returns
the last attempt's error, and logs it. -/
theorem go_exhaust (out : ℕ → HttpOutcome) :
    ∀ (rem attempt : ℕ) (le : Option String) (acc : List ℕ),
    1 ≤ rem →
    (∀ j, attempt ≤ j → j < attempt + rem → isRetryable (out j) = true) →
    (makeRequestGo out attempt rem le acc).result =
      .failure (retryError (out (attempt + rem - 1))) ∧
    (makeRequestGo out attempt rem le acc).attempts = attempt + rem ∧
    (makeRequestGo out attempt rem le acc).logged = true := by
  intro rem
  induction rem with
  | zero =>
    intro attempt le acc h1 _
    omega
  | succ r ih =>
    intro attempt le acc _ hall
    have hretry : isRetryable (out attempt) = true :=
      hall attempt le_rfl (by omega)
    rcases Option.isSome_iff_exists.1 hretry with ⟨M', hM'⟩
    rw [makeRequestGo_retry out attempt r le acc M' hM']
    cases r with
    | zero =>
      have hidx : attempt + 1 - 1 = attempt := by omega
      refine ⟨?_, ?_, ?_⟩ <;> simp [makeRequestGo, hidx, hM']
    | succ r' =>
      have hstep := ih (attempt + 1) (some M')
        (if r' + 1 = 0 then acc else 2 ^ attempt :: acc) (by omega)
        (fun j hj1 hj2 => hall j (by omega) (by omega))
      have hidx : attempt + 1 + (r' + 1) - 1 = attempt + (r' + 1 + 1) - 1 :=
        by omega
      have hidx2 : attempt + 1 + (r' + 1) = attempt + (r' + 1 + 1) := by omega
      rw [hidx] at hstep
      rw [hidx2] at hstep
      exact hstep

/-- C4: for every request, the client makes at most 3 attempts, sleeping
`2 ^ attempt` seconds between consecutive attempts (and only then); an HTTP
401, 403 or 404 reached after only retryable failures returns immediately
with its descriptive message, is never retried, and is not logged; and when
all 3 attempts fail retryably, the final attempt's error is returned in the
response message and the failure is logged. -/
theorem make_request_retry_policy (out : ℕ → HttpOutcome) :
    (make_request out).attempts ≤ 3 ∧
    (make_request out).sleeps =
      (List.range' 0 ((make_request out).attempts - 1)).map
        (fun i => 2 ^ i) ∧
    (∀ i M, i < 3 → (∀ j, j < i → isRetryable (out j) = true) →
      shortCircuitMessage (out i) = some M →
      (make_request out).result = .failure (some M) ∧
      (make_request out).attempts = i + 1 ∧
      (make_request out).logged = false) ∧
    ((∀ i, i < 3 → isRetryable (out i) = true) →
      (make_request out).result = .failure (retryError (out 2)) ∧
      (make_request out).attempts = 3 ∧
      (make_request out).logged = true) := by
  refine ⟨?_, ?_, ?_, ?_⟩
  · simpa using (go_bounds out 3 0 none []).1
  · simpa using go_sleeps out 3 0 none []
  · intro i M hi hall hM
    exact go_shortCircuit out i M 3 0 none [] (by omega) (by omega)
      (fun j _ hj => hall j hj) hM
  · intro hall
    have h := go_exhaust out 3 0 none [] (by omega)
      (fun j _ hj => hall j (by omega))
    simpa using h

/-- Witness for `make_request_retry_policy`: a request whose every attempt
times out. -/
theorem make_request_retry_policy_witness :
    (make_request (fun _ => .timeout)).result =
      .failure (retryError ((fun _ => HttpOutcome.timeout) 2)) ∧
    (make_request (fun _ => .timeout)).attempts = 3 ∧
    (make_request (fun _ => .timeout)).logged = true :=
  (make_request_retry_policy (fun _ => .timeout)).2.2.2 (fun _ _ => rfl)

/-- The SHA-256 digest serialization is always 32 bytes. -/
theorem sha256Digest_length (st : Sha256State) :
    (sha256Digest st).length = 32 := by
  simp [sha256Digest, wordToBytes]

/-- SHA-256 always produces 32 bytes. -/
theorem sha256_length (msg : List ℕ) : (sha256 msg).length = 32 := by
  unfold sha256
  exact sha256Digest_length _

/-- Hex rendering doubles the byte count. -/
theorem flatMap_byteToHex_length (l : List ℕ) :
    (l.flatMap byteToHex).length = 2 * l.length := by
  induction l with
  | nil => simp
  | cons a t ih =>
    simp only [List.flatMap_cons, List.length_append, ih, byteToHex]
    simp
    omega

/-- A hex digit, whatever its index, is one of the sixteen lowercase hex
characters. -/
theorem hexChar_mem (n : ℕ) : hexChar n ∈ "0123456789abcdef".data := by
  unfold hexChar
  rcases h : "0123456789abcdef".data[n]? with - | c
  · simp only [List.getD_eq_getElem?_getD, h, Option.getD_none]
    decide
  · simp only [List.getD_eq_getElem?_getD, h, Option.getD_some]
    exact List.getElem?_mem h

/-- HMAC-SHA256 always produces 32 bytes. -/
theorem hmacSha256_length (key msg : List ℕ) :
    (hmacSha256 key msg).length = 32 := by
  unfold hmacSha256
  exact sha256_length _

/-- C5: `_generate_signature` returns the empty string for an empty (or
absent) secret — and `_make_request` then attaches no signature or timestamp
header; with a non-empty secret it returns a 64-character lowercase-hex
string, deterministic in the payload and secret, and the attached signature
header is exactly the HMAC of the JSON-serialized, key-sorted payload. -/
theorem generate_signature_spec (api_secret payload api_key : String)
    (data : Option (List (String × String))) (timestamp : ℕ)
    (hs : api_secret ≠ "") :
    generate_signature "" payload = "" ∧
    (∀ s1 s2 p1 p2 : String, s1 = s2 → p1 = p2 →
      generate_signature s1 p1 = generate_signature s2 p2) ∧
    (generate_signature api_secret payload).length = 64 ∧
    (∀ c ∈ (generate_signature api_secret payload).data,
      c ∈ "0123456789abcdef".data) ∧
    (∀ kv ∈ buildHeaders api_key "" data timestamp,
      kv.1 ≠ "X-Api-Signature" ∧ kv.1 ≠ "X-Api-Timestamp") ∧
    (∀ d : List (String × String), d ≠ [] →
      ("X-Api-Signature", generate_signature api_secret (dumpsSorted d)) ∈
        buildHeaders api_key api_secret (some d) timestamp) := by
  refine ⟨rfl, fun s1 s2 p1 p2 h1 h2 => by rw [h1, h2], ?_, ?_, ?_, ?_⟩
  · unfold generate_signature
    rw [if_neg hs]
    show ((hmacSha256 (strToBytes api_secret)
      (strToBytes payload)).flatMap byteToHex).length = 64
    rw [flatMap_byteToHex_length, hmacSha256_length]
  · intro c hc
    unfold generate_signature at hc
    rw [if_neg hs] at hc
    have hc2 : c ∈ (hmacSha256 (strToBytes api_secret)
        (strToBytes payload)).flatMap byteToHex := hc
    rcases List.mem_flatMap.1 hc2 with ⟨b, -, hcb⟩
    unfold byteToHex at hcb
    simp only [List.mem_cons, List.not_mem_nil, or_false] at hcb
    rcases hcb with h | h <;> (subst h; exact hexChar_mem _)
  · intro kv hkv
    unfold buildHeaders at hkv
    cases data with
    | none =>
      dsimp only at hkv
      simp only [List.mem_cons, List.not_mem_nil, or_false] at hkv
      rcases hkv with h | h <;> subst h <;> simp
    | some d =>
      dsimp only at hkv
      rw [if_neg (by simp)] at hkv
      simp only [List.mem_cons, List.not_mem_nil, or_false] at hkv
      rcases hkv with h | h <;> subst h <;> simp
  · intro d hd
    unfold buildHeaders
    dsimp only
    rw [if_pos ⟨hs, hd⟩]
    simp

/-- Witness for `generate_signature_spec` at a concrete secret. -/
theorem generate_signature_spec_witness :
    ("secret" : String) ≠ "" ∧
    (generate_signature "secret" "payload").length = 64 :=
  ⟨by decide,
    (generate_signature_spec "secret" "payload" "apikey" none 0
      (by decide)).2.2.1⟩
